import Mathlib

/-!
Verification of the ClusterRegistration reconciler
(`pkg/controller/core.oam.dev/v1beta1/clusterregistration/clusterregistration_controller.go`
together with `apis/core.oam.dev/v1beta1/clusterregistration_types.go`).

The reconciler is embedded shallowly: each external collaborator call
(`r.Update`, `r.Status().Update`, `os.CreateTemp`, `tmpfile.Write`,
`multicluster.LoadKubeClusterConfigFromFile`, `Validate`,
`RegisterByVelaSecret`, `multicluster.DetachCluster`) is given its outcome
by an `Env` record, and every call the reconciler performs is recorded in
an effect trace, so that statements about "which collaborator calls happen"
and "which status snapshots are written" are statements about the trace.
-/

namespace ClusterRegistrationProof

/-- A status condition, as in `apis/core.oam.dev/condition`:
{type, status, reason, message}. `lastTransitionTime` is irrelevant to every
property proved here and is omitted. -/
structure Condition where
  condType : String
  condStatus : Bool
  reason : String
  message : String
  deriving DecidableEq, Repr

/-- Modelled from the spec: `condition.Available()` produces the single
Available judgment condition (type Ready, status true, reason Available);
the source of that helper is outside the corpus. -/
def conditionAvailable : Condition :=
  { condType := "Ready", condStatus := true, reason := "Available", message := "" }

/-- Modelled from the spec: `condition.Unavailable()` produces the single
Unavailable judgment condition (type Ready, status false, reason
Unavailable); the source of that helper is outside the corpus. -/
def conditionUnavailable : Condition :=
  { condType := "Ready", condStatus := false, reason := "Unavailable", message := "" }

/-- Modelled from the spec: `multicluster.ClusterLocalName`, the reserved
sentinel cluster name for the local/hub cluster; the spec (Scenario C and
the controller's own error string) fixes it as the literal `"local"`. -/
def clusterLocalName : String := "local"

/-- `clusterRegistrationFinalizer` from the controller source. -/
def clusterRegistrationFinalizer : String := "clusterregistration.core.oam.dev/finalizer"

/-- The four `ClusterRegistrationPhase` string constants are Go string
values; the phase field is a string (zero value `""` for a fresh record). -/
def clusterRegistrationPhasePending : String := "Pending"

/-- `ClusterRegistrationPhaseProgressing`. -/
def clusterRegistrationPhaseProgressing : String := "Progressing"

/-- `ClusterRegistrationPhaseReady`. -/
def clusterRegistrationPhaseReady : String := "Ready"

/-- `ClusterRegistrationPhaseFailed`. -/
def clusterRegistrationPhaseFailed : String := "Failed"

/-- `ClusterInfo` from `clusterregistration_types.go`. -/
structure ClusterInfo where
  endpoint : String
  credentialType : String
  version : String
  deriving DecidableEq, Repr

/-- `ClusterRegistrationStatus` from `clusterregistration_types.go`.
`metav1.Time` is modelled as a natural-number timestamp. -/
structure ClusterRegistrationStatus where
  phase : String
  conditions : List Condition
  clusterInfo : Option ClusterInfo
  message : String
  observedGeneration : Int
  lastReconcileTime : Option Nat
  deriving DecidableEq, Repr

/-- `ClusterRegistrationSpec` from `clusterregistration_types.go`
(the fields the controller reads). -/
structure ClusterRegistrationSpec where
  clusterName : String
  aliasName : String
  kubeconfig : String
  createNamespace : String
  deriving DecidableEq, Repr

/-- The `metav1.ObjectMeta` fields the controller reads: name, generation,
deletion timestamp (`none` models `DeletionTimestamp.IsZero()`), and the
finalizer list. -/
structure ObjectMeta where
  name : String
  generation : Int
  deletionTimestamp : Option Nat
  finalizers : List String
  deriving DecidableEq, Repr

/-- `ClusterRegistration` from `clusterregistration_types.go`. -/
structure ClusterRegistration where
  meta : ObjectMeta
  spec : ClusterRegistrationSpec
  status : ClusterRegistrationStatus
  deriving DecidableEq, Repr

/-- The fields of `multicluster.ClusterConfig` the controller reads after a
successful `LoadKubeClusterConfigFromFile`: `Cluster.Server`,
`AuthInfo.Token`, and `AuthInfo.Exec` (a pointer, `Option Unit`). -/
structure ClusterConfig where
  server : String
  token : String
  execProvider : Option Unit
  deriving DecidableEq, Repr

/-- Outcome of `multicluster.DetachCluster`: success, a not-found error
(`apierrors.IsNotFound`), or any other error carrying its message. -/
inductive DetachOutcome where
  | ok : DetachOutcome
  | notFound (msg : String) : DetachOutcome
  | failed (msg : String) : DetachOutcome
  deriving DecidableEq, Repr

/-- Outcomes of the collaborator calls a single reconciliation pass may
perform, plus the clock (`metav1.Now()`). Each field is the result the
corresponding external call would return if the pass reaches it. -/
structure Env where
  now : Nat
  updateErr : Option String
  statusUpdateErr : Option String
  createTempErr : Option String
  writeTempErr : Option String
  loadResult : Except String ClusterConfig
  validateErr : Option String
  registerErr : Option String
  detachResult : DetachOutcome
  deriving Repr

/-- The observable calls a pass makes, with the payloads handed to the
collaborators: metadata updates carry the finalizer list persisted, status
updates carry the exact status snapshot written. -/
inductive Effect where
  | update (finalizers : List String) : Effect
  | statusUpdate (st : ClusterRegistrationStatus) : Effect
  | createTemp : Effect
  | writeTemp (content : String) : Effect
  | removeTemp : Effect
  | loadKubeClusterConfig : Effect
  | registerByVelaSecret (clusterName : String) : Effect
  | detachCluster (clusterName : String) : Effect
  deriving DecidableEq, Repr

/-- `ctrl.Result`: requeue flag and `RequeueAfter` in seconds. -/
structure CtrlResult where
  requeue : Bool
  requeueAfterSeconds : Nat
  deriving DecidableEq, Repr

/-- What one reconciliation pass produces: the `(ctrl.Result, error)` pair
returned to the dispatcher, the in-memory record as left by the pass, and
the trace of collaborator calls in order. -/
structure ReconcileOutput where
  result : CtrlResult
  err : Option String
  reg : ClusterRegistration
  effects : List Effect
  deriving DecidableEq, Repr

/-- `controllerutil.ContainsFinalizer` (controller-runtime library
semantics: membership in the metadata finalizer list). -/
def containsFinalizer (reg : ClusterRegistration) (f : String) : Bool :=
  reg.meta.finalizers.contains f

/-- `controllerutil.AddFinalizer`: appends the token if absent. -/
def addFinalizer (reg : ClusterRegistration) (f : String) : ClusterRegistration :=
  if reg.meta.finalizers.contains f then reg
  else { reg with meta := { reg.meta with finalizers := reg.meta.finalizers ++ [f] } }

/-- `controllerutil.RemoveFinalizer`: removes every occurrence of the token. -/
def removeFinalizer (reg : ClusterRegistration) (f : String) : ClusterRegistration :=
  { reg with meta := { reg.meta with finalizers := reg.meta.finalizers.filter (· ≠ f) } }

/-- The cluster-name resolution both paths perform: `spec.clusterName`,
defaulting to `metadata.name` when empty (controller lines 88-92, 195-199). -/
def resolveClusterName (reg : ClusterRegistration) : String :=
  if reg.spec.clusterName = "" then reg.meta.name else reg.spec.clusterName

/-- `updateFailedStatus` (controller lines 219-234): sets `phase=Failed`,
`message`, `observedGeneration`, `lastReconcileTime`, replaces the condition
list with one Unavailable condition carrying the message, and issues one
status write. The write's outcome `statusUpdateErr` is received but only
logged in the source, so the returned record and trace ignore it. -/
def updateFailedStatus (now : Nat) (statusUpdateErr : Option String)
    (clusterReg : ClusterRegistration) (message : String) :
    ClusterRegistration × List Effect :=
  let st : ClusterRegistrationStatus :=
    { clusterReg.status with
        phase := clusterRegistrationPhaseFailed
        message := message
        observedGeneration := clusterReg.meta.generation
        lastReconcileTime := some now
        conditions := [{ conditionUnavailable with message := message }] }
  ({ clusterReg with status := st }, [Effect.statusUpdate st])

/-- `handleDeletion` (controller lines 191-217). -/
def handleDeletion (env : Env) (clusterReg : ClusterRegistration) : ReconcileOutput :=
  if containsFinalizer clusterReg clusterRegistrationFinalizer then
    let clusterName := resolveClusterName clusterReg
    match env.detachResult with
    | DetachOutcome.failed e =>
        ⟨⟨false, 0⟩, some e, clusterReg, [Effect.detachCluster clusterName]⟩
    | _ =>
        let clusterReg := removeFinalizer clusterReg clusterRegistrationFinalizer
        match env.updateErr with
        | some e =>
            ⟨⟨false, 0⟩, some e, clusterReg,
              [Effect.detachCluster clusterName, Effect.update clusterReg.meta.finalizers]⟩
        | none =>
            ⟨⟨false, 0⟩, none, clusterReg,
              [Effect.detachCluster clusterName, Effect.update clusterReg.meta.finalizers]⟩
  else
    ⟨⟨false, 0⟩, none, clusterReg, []⟩

/-- `Reconcile` (controller lines 49-189), after a successful `Get` of the
record (a not-found `Get` is a dispatcher-level no-op and carries no
record to reason about). Translated branch by branch in source order. -/
def reconcile (env : Env) (clusterReg : ClusterRegistration) : ReconcileOutput :=
  -- Handle deletion
  if ¬ clusterReg.meta.deletionTimestamp.isNone then
    handleDeletion env clusterReg
  -- Add finalizer if not present
  else if ¬ containsFinalizer clusterReg clusterRegistrationFinalizer then
    let clusterReg := addFinalizer clusterReg clusterRegistrationFinalizer
    match env.updateErr with
    | some e =>
        ⟨⟨false, 0⟩, some e, clusterReg, [Effect.update clusterReg.meta.finalizers]⟩
    | none =>
        ⟨⟨true, 0⟩, none, clusterReg, [Effect.update clusterReg.meta.finalizers]⟩
  -- Check if already successfully registered and no spec changes
  else if clusterReg.status.phase = clusterRegistrationPhaseReady ∧
      clusterReg.status.observedGeneration = clusterReg.meta.generation then
    ⟨⟨false, 0⟩, none, clusterReg, []⟩
  else
    -- Get cluster name (default to metadata.name if not specified)
    let clusterName := resolveClusterName clusterReg
    -- Validate cluster name
    if clusterName = clusterLocalName then
      let p := updateFailedStatus env.now env.statusUpdateErr clusterReg
        "cluster name cannot be 'local', it is reserved"
      ⟨⟨false, 0⟩, none, p.1, p.2⟩
    -- Update status to Progressing only if not already progressing
    else if clusterReg.status.phase ≠ clusterRegistrationPhaseProgressing ∧
        clusterReg.status.phase ≠ clusterRegistrationPhaseReady then
      let st := { clusterReg.status with
          phase := clusterRegistrationPhaseProgressing
          message := "Registering cluster..." }
      let clusterReg := { clusterReg with status := st }
      match env.statusUpdateErr with
      | some e => ⟨⟨false, 0⟩, some e, clusterReg, [Effect.statusUpdate st]⟩
      | none => ⟨⟨false, 0⟩, none, clusterReg, [Effect.statusUpdate st]⟩
    else
      -- Write kubeconfig to a temporary file
      match env.createTempErr with
      | some e =>
          let p := updateFailedStatus env.now env.statusUpdateErr clusterReg
            ("Failed to create temporary file: " ++ e)
          ⟨⟨false, 0⟩, none, p.1, Effect.createTemp :: p.2⟩
      | none =>
          match env.writeTempErr with
          | some e =>
              let p := updateFailedStatus env.now env.statusUpdateErr clusterReg
                ("Failed to write kubeconfig: " ++ e)
              ⟨⟨false, 0⟩, none, p.1,
                Effect.createTemp :: Effect.writeTemp clusterReg.spec.kubeconfig :: p.2
                  ++ [Effect.removeTemp]⟩
          | none =>
              -- Load and validate the kubeconfig
              match env.loadResult with
              | Except.error e =>
                  let p := updateFailedStatus env.now env.statusUpdateErr clusterReg
                    ("Failed to load kubeconfig: " ++ e)
                  ⟨⟨false, 0⟩, none, p.1,
                    Effect.createTemp :: Effect.writeTemp clusterReg.spec.kubeconfig ::
                      Effect.loadKubeClusterConfig :: p.2 ++ [Effect.removeTemp]⟩
              | Except.ok clusterConfig =>
                  -- Configure cluster and validate
                  match env.validateErr with
                  | some e =>
                      let p := updateFailedStatus env.now env.statusUpdateErr clusterReg
                        ("Validation failed: " ++ e)
                      ⟨⟨false, 0⟩, none, p.1,
                        Effect.createTemp :: Effect.writeTemp clusterReg.spec.kubeconfig ::
                          Effect.loadKubeClusterConfig :: p.2 ++ [Effect.removeTemp]⟩
                  | none =>
                      -- Register the cluster by creating/updating the secret
                      match env.registerErr with
                      | some e =>
                          let p := updateFailedStatus env.now env.statusUpdateErr clusterReg
                            ("Failed to register cluster: " ++ e)
                          ⟨⟨false, 30⟩, none, p.1,
                            Effect.createTemp :: Effect.writeTemp clusterReg.spec.kubeconfig ::
                              Effect.loadKubeClusterConfig ::
                              Effect.registerByVelaSecret clusterName :: p.2
                                ++ [Effect.removeTemp]⟩
                      | none =>
                          -- Set cluster info
                          let credentialType :=
                            if clusterConfig.token.length > 0 ∨ clusterConfig.execProvider.isSome
                            then "ServiceAccountToken" else "X509Certificate"
                          -- Update status to Ready
                          let st : ClusterRegistrationStatus :=
                            { clusterReg.status with
                                phase := clusterRegistrationPhaseReady
                                message := "Cluster successfully registered"
                                observedGeneration := clusterReg.meta.generation
                                lastReconcileTime := some env.now
                                clusterInfo := some
                                  { endpoint := clusterConfig.server
                                    credentialType := credentialType
                                    version := "" }
                                conditions := [{ conditionAvailable with
                                  message := "Cluster successfully registered and ready" }] }
                          let clusterReg := { clusterReg with status := st }
                          let effs :=
                            Effect.createTemp :: Effect.writeTemp clusterReg.spec.kubeconfig ::
                              Effect.loadKubeClusterConfig ::
                              Effect.registerByVelaSecret clusterName ::
                              Effect.statusUpdate st :: [Effect.removeTemp]
                          match env.statusUpdateErr with
                          | some e => ⟨⟨false, 0⟩, some e, clusterReg, effs⟩
                          | none => ⟨⟨false, 0⟩, none, clusterReg, effs⟩

/-! ## Sample records and environments used by the concrete witnesses -/

/-- A token-bearing loaded credential used by the witnesses. -/
def sampleCfg : ClusterConfig :=
  { server := "https://10.0.0.1:6443", token := "tok", execProvider := none }

/-- A collaborator environment in which every call succeeds. -/
def sampleEnv : Env :=
  { now := 100
    updateErr := none
    statusUpdateErr := none
    createTempErr := none
    writeTempErr := none
    loadResult := Except.ok sampleCfg
    validateErr := none
    registerErr := none
    detachResult := DetachOutcome.ok }

/-- The zero-valued status a fresh record carries. -/
def freshStatus : ClusterRegistrationStatus :=
  { phase := "", conditions := [], clusterInfo := none, message := ""
    observedGeneration := 0, lastReconcileTime := none }

/-- A record carrying the finalizer, generation 3, empty `spec.clusterName`
(so the name resolves to the metadata name). -/
def sampleReg : ClusterRegistration :=
  { meta := { name := "prod-west", generation := 3, deletionTimestamp := none
              finalizers := [clusterRegistrationFinalizer] }
    spec := { clusterName := "", aliasName := "", kubeconfig := "kc", createNamespace := "" }
    status := freshStatus }

/-- `sampleReg` already reconciled to `Ready` at its current generation. -/
def sampleRegReady : ClusterRegistration :=
  { sampleReg with status :=
      { freshStatus with phase := clusterRegistrationPhaseReady, observedGeneration := 3 } }

/-! ## Claims -/

/-- C1: a record with `status.phase = Ready`, `status.observedGeneration =
metadata.generation`, no deletion marker, and the finalizer present is a
fixed point: `Reconcile` performs no collaborator call at all, returns
success with no requeue, and leaves the record (in particular its status)
fully unchanged. -/
theorem reconcile_ready_fixed_point (env : Env) (reg : ClusterRegistration)
    (hdel : reg.meta.deletionTimestamp = none)
    (hfin : containsFinalizer reg clusterRegistrationFinalizer = true)
    (hphase : reg.status.phase = clusterRegistrationPhaseReady)
    (hgen : reg.status.observedGeneration = reg.meta.generation) :
    reconcile env reg = ⟨⟨false, 0⟩, none, reg, []⟩ := by
  unfold reconcile
  simp [hdel, hfin, hphase, hgen]

theorem reconcile_ready_fixed_point_witness :
    reconcile sampleEnv sampleRegReady = ⟨⟨false, 0⟩, none, sampleRegReady, []⟩ :=
  reconcile_ready_fixed_point sampleEnv sampleRegReady rfl rfl rfl rfl

/-- C7: `updateFailedStatus` sets `phase=Failed`, stores the supplied
message verbatim, replaces the condition list with a single Unavailable
condition carrying that message, sets `observedGeneration` to the current
generation and `lastReconcileTime`, and performs exactly one status write
with that snapshot; the outcome of the status write itself never changes
what the helper produces (it is logged only, never propagated). -/
theorem updateFailedStatus_contract (now : Nat) (e e' : Option String)
    (reg : ClusterRegistration) (msg : String) :
    updateFailedStatus now e reg msg = updateFailedStatus now e' reg msg ∧
    (updateFailedStatus now e reg msg).1.status.phase = clusterRegistrationPhaseFailed ∧
    (updateFailedStatus now e reg msg).1.status.message = msg ∧
    (updateFailedStatus now e reg msg).1.status.conditions
      = [{ conditionUnavailable with message := msg }] ∧
    (updateFailedStatus now e reg msg).1.status.observedGeneration = reg.meta.generation ∧
    (updateFailedStatus now e reg msg).1.status.lastReconcileTime = some now ∧
    (updateFailedStatus now e reg msg).2
      = [Effect.statusUpdate (updateFailedStatus now e reg msg).1.status] :=
  ⟨rfl, rfl, rfl, rfl, rfl, rfl, rfl⟩

/-- C9: `updateFailedStatus` is a frame for everything except the five
fields it projects: `status.clusterInfo` (the stale data from an earlier
Ready pass), the metadata, and the spec are returned untouched, so a record
that was Ready and later fails a new generation still exposes the earlier
`clusterInfo` under `phase=Failed`. -/
theorem updateFailedStatus_frame (now : Nat) (e : Option String)
    (reg : ClusterRegistration) (msg : String) :
    (updateFailedStatus now e reg msg).1.status.clusterInfo = reg.status.clusterInfo ∧
    (updateFailedStatus now e reg msg).1.meta = reg.meta ∧
    (updateFailedStatus now e reg msg).1.spec = reg.spec :=
  ⟨rfl, rfl, rfl⟩

/-- C3: with the deletion/finalizer/fixed-point guards passed, a record
whose resolved cluster name is the reserved local sentinel is projected to
`phase=Failed` with the message naming the reserved value, the only
collaborator call of the pass is the one failure-status write (so no
credential loading and no registration), and the pass returns success with
no requeue — no automatic retry. -/
theorem reconcile_reserved_name_rejected (env : Env) (reg : ClusterRegistration)
    (hdel : reg.meta.deletionTimestamp = none)
    (hfin : containsFinalizer reg clusterRegistrationFinalizer = true)
    (hfix : ¬(reg.status.phase = clusterRegistrationPhaseReady ∧
        reg.status.observedGeneration = reg.meta.generation))
    (hname : resolveClusterName reg = clusterLocalName) :
    (reconcile env reg).reg.status.phase = clusterRegistrationPhaseFailed ∧
    (reconcile env reg).reg.status.message = "cluster name cannot be 'local', it is reserved" ∧
    (reconcile env reg).result = ⟨false, 0⟩ ∧
    (reconcile env reg).err = none ∧
    (reconcile env reg).effects = [Effect.statusUpdate (reconcile env reg).reg.status] := by
  have h : reconcile env reg =
      ⟨⟨false, 0⟩, none,
        (updateFailedStatus env.now env.statusUpdateErr reg
          "cluster name cannot be 'local', it is reserved").1,
        (updateFailedStatus env.now env.statusUpdateErr reg
          "cluster name cannot be 'local', it is reserved").2⟩ := by
    unfold reconcile
    simp [hdel, hfin, hfix, hname]
  rw [h]
  exact ⟨rfl, rfl, rfl, rfl, rfl⟩

/-- A record with the finalizer, in `Progressing`, named `local`. -/
def sampleRegLocal : ClusterRegistration :=
  { sampleReg with spec := { sampleReg.spec with clusterName := "local" } }

theorem reconcile_reserved_name_rejected_witness :
    (reconcile sampleEnv sampleRegLocal).reg.status.phase = clusterRegistrationPhaseFailed ∧
    (reconcile sampleEnv sampleRegLocal).reg.status.message
      = "cluster name cannot be 'local', it is reserved" ∧
    (reconcile sampleEnv sampleRegLocal).result = ⟨false, 0⟩ ∧
    (reconcile sampleEnv sampleRegLocal).err = none ∧
    (reconcile sampleEnv sampleRegLocal).effects
      = [Effect.statusUpdate (reconcile sampleEnv sampleRegLocal).reg.status] :=
  reconcile_reserved_name_rejected sampleEnv sampleRegLocal rfl rfl
    (by decide) rfl

/-- A Progressing record at an unobserved generation. -/
def sampleRegProgressing : ClusterRegistration :=
  { sampleReg with status := { freshStatus with phase := clusterRegistrationPhaseProgressing } }

/-- An environment whose registrar call fails. -/
def sampleEnvRegisterFail : Env := { sampleEnv with registerErr := some "connection refused" }

/-- C2 counterexample: on a registrar failure the controller does mark the
record `Failed` (through `updateFailedStatus`, which also writes that
snapshot) — the claim that the phase is not marked Failed and that status
remains Progressing is false — while it does return the fixed 30-second
backoff directive. -/
theorem reconcile_register_failure_counterexample :
    (reconcile sampleEnvRegisterFail sampleRegProgressing).reg.status.phase
      = clusterRegistrationPhaseFailed ∧
    Effect.statusUpdate (reconcile sampleEnvRegisterFail sampleRegProgressing).reg.status
      ∈ (reconcile sampleEnvRegisterFail sampleRegProgressing).effects ∧
    (reconcile sampleEnvRegisterFail sampleRegProgressing).result = ⟨false, 30⟩ := by
  decide

/-- C2 as amended: on a registrar failure the controller projects the
record to `Failed` via the failure-status helper (message
`Failed to register cluster: ...`, snapshot written by the one status
write) and returns a bounded fixed-backoff retry directive
(`RequeueAfter` 30 seconds, no error) to the dispatcher, so retries
continue from the `Failed` — not `Progressing` — status. -/
theorem reconcile_register_failure_requeues (env : Env) (reg : ClusterRegistration)
    (cfg : ClusterConfig) (e : String)
    (hdel : reg.meta.deletionTimestamp = none)
    (hfin : containsFinalizer reg clusterRegistrationFinalizer = true)
    (hfix : ¬(reg.status.phase = clusterRegistrationPhaseReady ∧
        reg.status.observedGeneration = reg.meta.generation))
    (hname : resolveClusterName reg ≠ clusterLocalName)
    (hprog : reg.status.phase = clusterRegistrationPhaseProgressing ∨
        reg.status.phase = clusterRegistrationPhaseReady)
    (hct : env.createTempErr = none)
    (hwt : env.writeTempErr = none)
    (hload : env.loadResult = Except.ok cfg)
    (hval : env.validateErr = none)
    (hreg : env.registerErr = some e) :
    (reconcile env reg).result = ⟨false, 30⟩ ∧
    (reconcile env reg).err = none ∧
    (reconcile env reg).reg.status.phase = clusterRegistrationPhaseFailed ∧
    (reconcile env reg).reg.status.message = "Failed to register cluster: " ++ e ∧
    Effect.statusUpdate (reconcile env reg).reg.status ∈ (reconcile env reg).effects := by
  have hpa : ¬(reg.status.phase ≠ clusterRegistrationPhaseProgressing ∧
      reg.status.phase ≠ clusterRegistrationPhaseReady) := by
    rcases hprog with h | h <;> simp [h]
  have h : reconcile env reg =
      ⟨⟨false, 30⟩, none,
        (updateFailedStatus env.now env.statusUpdateErr reg
          ("Failed to register cluster: " ++ e)).1,
        Effect.createTemp :: Effect.writeTemp reg.spec.kubeconfig ::
          Effect.loadKubeClusterConfig ::
          Effect.registerByVelaSecret (resolveClusterName reg) ::
          (updateFailedStatus env.now env.statusUpdateErr reg
            ("Failed to register cluster: " ++ e)).2 ++ [Effect.removeTemp]⟩ := by
    unfold reconcile
    simp [hdel, hfin, hfix, hname, hpa, hct, hwt, hload, hval, hreg]
  rw [h]
  refine ⟨rfl, rfl, rfl, rfl, ?_⟩
  simp [updateFailedStatus]

theorem reconcile_register_failure_requeues_witness :
    (reconcile sampleEnvRegisterFail sampleRegProgressing).result = ⟨false, 30⟩ ∧
    (reconcile sampleEnvRegisterFail sampleRegProgressing).err = none ∧
    (reconcile sampleEnvRegisterFail sampleRegProgressing).reg.status.phase
      = clusterRegistrationPhaseFailed ∧
    (reconcile sampleEnvRegisterFail sampleRegProgressing).reg.status.message
      = "Failed to register cluster: " ++ "connection refused" ∧
    Effect.statusUpdate (reconcile sampleEnvRegisterFail sampleRegProgressing).reg.status
      ∈ (reconcile sampleEnvRegisterFail sampleRegProgressing).effects :=
  reconcile_register_failure_requeues sampleEnvRegisterFail sampleRegProgressing
    { server := "https://10.0.0.1:6443", token := "tok", execProvider := none }
    "connection refused" rfl rfl (by decide) (by decide) (Or.inl rfl)
    rfl rfl rfl rfl rfl

/-- C4: the deletion path. With a deletion marker present: if the
finalizer is absent the pass is a no-op success; if present the Detacher is
invoked with the resolved cluster name, a not-found result is treated like
success (finalizer removed and the removal persisted), any other Detacher
error is returned to the dispatcher with the record untouched (finalizer
kept, no status write — the trace holds only the detach call), and on
success the finalizer is removed and persisted. -/
theorem reconcile_deletion_path (env : Env) (reg : ClusterRegistration)
    (hdel : reg.meta.deletionTimestamp ≠ none) :
    (containsFinalizer reg clusterRegistrationFinalizer = false →
      reconcile env reg = ⟨⟨false, 0⟩, none, reg, []⟩) ∧
    (containsFinalizer reg clusterRegistrationFinalizer = true →
      (∀ e, env.detachResult = DetachOutcome.failed e →
        reconcile env reg =
          ⟨⟨false, 0⟩, some e, reg, [Effect.detachCluster (resolveClusterName reg)]⟩) ∧
      (env.updateErr = none →
        (env.detachResult = DetachOutcome.ok ∨
          (∃ m, env.detachResult = DetachOutcome.notFound m)) →
        reconcile env reg =
          ⟨⟨false, 0⟩, none, removeFinalizer reg clusterRegistrationFinalizer,
            [Effect.detachCluster (resolveClusterName reg),
             Effect.update (removeFinalizer reg clusterRegistrationFinalizer).meta.finalizers]⟩)) := by
  have hdel' : reg.meta.deletionTimestamp.isNone = false := by
    cases h : reg.meta.deletionTimestamp with
    | none => exact absurd h hdel
    | some t => rfl
  refine ⟨?_, ?_⟩
  · intro hfin
    unfold reconcile handleDeletion
    simp [hdel', hfin]
  · intro hfin
    refine ⟨?_, ?_⟩
    · intro e hdet
      unfold reconcile handleDeletion
      simp [hdel', hfin, hdet]
    · intro hup hdet
      unfold reconcile handleDeletion
      rcases hdet with h | ⟨m, h⟩ <;> simp [hdel', hfin, h, hup]

/-- `sampleReg` marked for deletion. -/
def sampleRegDeleting : ClusterRegistration :=
  { sampleReg with meta := { sampleReg.meta with deletionTimestamp := some 7 } }

/-- A deleting record that does not carry the finalizer. -/
def sampleRegDeletingNoFinalizer : ClusterRegistration :=
  { sampleRegDeleting with meta := { sampleRegDeleting.meta with finalizers := [] } }

/-- An environment whose detach call fails with a non-not-found error. -/
def sampleEnvDetachFail : Env := { sampleEnv with detachResult := DetachOutcome.failed "gateway down" }

theorem reconcile_deletion_path_witness :
    reconcile sampleEnv sampleRegDeletingNoFinalizer
      = ⟨⟨false, 0⟩, none, sampleRegDeletingNoFinalizer, []⟩ ∧
    reconcile sampleEnvDetachFail sampleRegDeleting
      = ⟨⟨false, 0⟩, some "gateway down", sampleRegDeleting,
          [Effect.detachCluster (resolveClusterName sampleRegDeleting)]⟩ ∧
    reconcile sampleEnv sampleRegDeleting
      = ⟨⟨false, 0⟩, none, removeFinalizer sampleRegDeleting clusterRegistrationFinalizer,
          [Effect.detachCluster (resolveClusterName sampleRegDeleting),
           Effect.update (removeFinalizer sampleRegDeleting clusterRegistrationFinalizer).meta.finalizers]⟩ :=
  ⟨(reconcile_deletion_path sampleEnv sampleRegDeletingNoFinalizer (by decide)).1 rfl,
   ((reconcile_deletion_path sampleEnvDetachFail sampleRegDeleting (by decide)).2 rfl).1
     "gateway down" rfl,
   ((reconcile_deletion_path sampleEnv sampleRegDeleting (by decide)).2 rfl).2 rfl (Or.inl rfl)⟩

/-- C5: when the registrar call succeeds, the pass writes the Ready
projection: `phase=Ready`, `clusterInfo.endpoint` equal to the loaded
credential's server URL, `credentialType = "ServiceAccountToken"` exactly
when the credential holds a non-empty bearer token or an exec-provider
reference (otherwise `"X509Certificate"`), `observedGeneration` set to the
current generation, `lastReconcileTime` set, and the condition list
replaced by the single Available condition; that exact snapshot is handed
to the status write. -/
theorem reconcile_register_success_projection (env : Env) (reg : ClusterRegistration)
    (cfg : ClusterConfig)
    (hdel : reg.meta.deletionTimestamp = none)
    (hfin : containsFinalizer reg clusterRegistrationFinalizer = true)
    (hfix : ¬(reg.status.phase = clusterRegistrationPhaseReady ∧
        reg.status.observedGeneration = reg.meta.generation))
    (hname : resolveClusterName reg ≠ clusterLocalName)
    (hprog : reg.status.phase = clusterRegistrationPhaseProgressing ∨
        reg.status.phase = clusterRegistrationPhaseReady)
    (hct : env.createTempErr = none)
    (hwt : env.writeTempErr = none)
    (hload : env.loadResult = Except.ok cfg)
    (hval : env.validateErr = none)
    (hreg : env.registerErr = none) :
    (reconcile env reg).reg.status.phase = clusterRegistrationPhaseReady ∧
    (∃ ci, (reconcile env reg).reg.status.clusterInfo = some ci ∧
      ci.endpoint = cfg.server ∧
      (ci.credentialType = "ServiceAccountToken" ↔ (cfg.token ≠ "" ∨ cfg.execProvider ≠ none)) ∧
      (ci.credentialType = "ServiceAccountToken" ∨ ci.credentialType = "X509Certificate")) ∧
    (reconcile env reg).reg.status.observedGeneration = reg.meta.generation ∧
    (reconcile env reg).reg.status.lastReconcileTime = some env.now ∧
    (reconcile env reg).reg.status.conditions
      = [{ conditionAvailable with message := "Cluster successfully registered and ready" }] ∧
    Effect.statusUpdate (reconcile env reg).reg.status ∈ (reconcile env reg).effects := by
  have hpa : ¬(reg.status.phase ≠ clusterRegistrationPhaseProgressing ∧
      reg.status.phase ≠ clusterRegistrationPhaseReady) := by
    rcases hprog with h | h <;> simp [h]
  have h : (reconcile env reg).reg.status =
      { reg.status with
          phase := clusterRegistrationPhaseReady
          message := "Cluster successfully registered"
          observedGeneration := reg.meta.generation
          lastReconcileTime := some env.now
          clusterInfo := some
            { endpoint := cfg.server
              credentialType :=
                if cfg.token.length > 0 ∨ cfg.execProvider.isSome
                then "ServiceAccountToken" else "X509Certificate"
              version := "" }
          conditions := [{ conditionAvailable with
            message := "Cluster successfully registered and ready" }] } ∧
      Effect.statusUpdate (reconcile env reg).reg.status ∈ (reconcile env reg).effects := by
    unfold reconcile
    rcases hsu : env.statusUpdateErr with _ | e <;>
      simp [hdel, hfin, hfix, hname, hpa, hct, hwt, hload, hval, hreg, hsu]
  refine ⟨?_, ?_, ?_, ?_, ?_, h.2⟩
  · rw [h.1]
  · refine ⟨_, by rw [h.1], rfl, ?_, ?_⟩
    · constructor
      · intro hc
        by_contra hn
        push_neg at hn
        have h0 : cfg.token = "" := hn.1
        have h1 : cfg.execProvider = none := hn.2
        simp [h0, h1] at hc
      · intro hc
        have : cfg.token.length > 0 ∨ cfg.execProvider.isSome := by
          rcases hc with h' | h'
          · left
            have hlen : cfg.token.length ≠ 0 := by
              intro h0
              apply h'
              cases htk : cfg.token with
              | mk data =>
                rw [htk] at h0
                cases data with
                | nil => rfl
                | cons c cs => simp [String.length] at h0
            omega
          · right
            cases hq : cfg.execProvider with
            | none => exact absurd hq h'
            | some u => rfl
        simp [this]
    · by_cases hc : cfg.token.length > 0 ∨ cfg.execProvider.isSome
      · left; simp [hc]
      · right; simp [hc]
  · rw [h.1]
  · rw [h.1]
  · rw [h.1]

theorem reconcile_register_success_projection_witness :
    (reconcile sampleEnv sampleRegProgressing).reg.status.phase
      = clusterRegistrationPhaseReady ∧
    (∃ ci, (reconcile sampleEnv sampleRegProgressing).reg.status.clusterInfo = some ci ∧
      ci.endpoint = sampleCfg.server ∧
      (ci.credentialType = "ServiceAccountToken" ↔
        (sampleCfg.token ≠ "" ∨ sampleCfg.execProvider ≠ none)) ∧
      (ci.credentialType = "ServiceAccountToken" ∨ ci.credentialType = "X509Certificate")) ∧
    (reconcile sampleEnv sampleRegProgressing).reg.status.observedGeneration
      = sampleRegProgressing.meta.generation ∧
    (reconcile sampleEnv sampleRegProgressing).reg.status.lastReconcileTime
      = some sampleEnv.now ∧
    (reconcile sampleEnv sampleRegProgressing).reg.status.conditions
      = [{ conditionAvailable with message := "Cluster successfully registered and ready" }] ∧
    Effect.statusUpdate (reconcile sampleEnv sampleRegProgressing).reg.status
      ∈ (reconcile sampleEnv sampleRegProgressing).effects :=
  reconcile_register_success_projection sampleEnv sampleRegProgressing sampleCfg
    rfl rfl (by decide) (by decide) (Or.inl rfl) rfl rfl rfl rfl rfl

/-- C8: a live record lacking the deletion-guard finalizer gets exactly one
treatment: the finalizer is appended, persisted, and the pass returns a
requeue directive having performed no other call; and over any pass at all,
a registrar call can only appear in the trace if the input record already
carried the finalizer — registration never happens on a record that does
not durably hold it. -/
theorem reconcile_finalizer_before_side_effects (env : Env) (reg : ClusterRegistration) :
    (reg.meta.deletionTimestamp = none →
      containsFinalizer reg clusterRegistrationFinalizer = false →
      env.updateErr = none →
      reconcile env reg =
        ⟨⟨true, 0⟩, none, addFinalizer reg clusterRegistrationFinalizer,
          [Effect.update (reg.meta.finalizers ++ [clusterRegistrationFinalizer])]⟩) ∧
    (∀ cn, Effect.registerByVelaSecret cn ∈ (reconcile env reg).effects →
      containsFinalizer reg clusterRegistrationFinalizer = true) := by
  constructor
  · intro hdel hfin hup
    have hnm : clusterRegistrationFinalizer ∉ reg.meta.finalizers := by
      simpa [containsFinalizer] using hfin
    unfold reconcile
    simp [hdel, containsFinalizer, hnm, hup, addFinalizer]
  · intro cn hmem
    by_cases hfin : containsFinalizer reg clusterRegistrationFinalizer = true
    · exact hfin
    · exfalso
      simp only [Bool.not_eq_true] at hfin
      by_cases hdel : reg.meta.deletionTimestamp.isNone
      · rcases hup : env.updateErr with _ | e <;>
          simp [reconcile, hdel, hfin, hup, addFinalizer] at hmem
      · simp only [Bool.not_eq_true] at hdel
        simp [reconcile, handleDeletion, hdel, hfin] at hmem

/-- `sampleReg` without the finalizer. -/
def sampleRegNoFinalizer : ClusterRegistration :=
  { sampleReg with meta := { sampleReg.meta with finalizers := [] } }

theorem reconcile_finalizer_before_side_effects_witness :
    reconcile sampleEnv sampleRegNoFinalizer =
      ⟨⟨true, 0⟩, none, addFinalizer sampleRegNoFinalizer clusterRegistrationFinalizer,
        [Effect.update (sampleRegNoFinalizer.meta.finalizers ++ [clusterRegistrationFinalizer])]⟩ ∧
    containsFinalizer sampleRegProgressing clusterRegistrationFinalizer = true :=
  ⟨(reconcile_finalizer_before_side_effects sampleEnv sampleRegNoFinalizer).1 rfl rfl rfl,
   (reconcile_finalizer_before_side_effects sampleEnv sampleRegProgressing).2
     "prod-west" (by decide)⟩

/-- C10: the idempotency short-circuit requires `phase = Ready`. A record
in `Failed` with `observedGeneration = generation` (finalizer present, not
deleting, name not reserved) is not short-circuited: the pass re-announces
`Progressing` (one status write, success outcome), and the pass the
announcement triggers re-runs the side-effecting forward work — the
credential load and the registrar call both appear in its trace. -/
theorem reconcile_failed_phase_reexecutes (env env2 : Env) (reg : ClusterRegistration)
    (cfg : ClusterConfig)
    (hdel : reg.meta.deletionTimestamp = none)
    (hfin : containsFinalizer reg clusterRegistrationFinalizer = true)
    (hphase : reg.status.phase = clusterRegistrationPhaseFailed)
    (hgen : reg.status.observedGeneration = reg.meta.generation)
    (hname : resolveClusterName reg ≠ clusterLocalName)
    (hsu : env.statusUpdateErr = none)
    (hct : env2.createTempErr = none)
    (hwt : env2.writeTempErr = none)
    (hload : env2.loadResult = Except.ok cfg)
    (hval : env2.validateErr = none) :
    (reconcile env reg).reg.status.phase = clusterRegistrationPhaseProgressing ∧
    (reconcile env reg).effects = [Effect.statusUpdate (reconcile env reg).reg.status] ∧
    (reconcile env reg).result = ⟨false, 0⟩ ∧
    (reconcile env reg).err = none ∧
    Effect.loadKubeClusterConfig ∈ (reconcile env2 (reconcile env reg).reg).effects ∧
    Effect.registerByVelaSecret (resolveClusterName reg)
      ∈ (reconcile env2 (reconcile env reg).reg).effects := by
  have hfix : ¬(reg.status.phase = clusterRegistrationPhaseReady ∧
      reg.status.observedGeneration = reg.meta.generation) := by
    simp [hphase, clusterRegistrationPhaseReady, clusterRegistrationPhaseFailed]
  have h1 : reconcile env reg =
      ⟨⟨false, 0⟩, none,
        { reg with status := { reg.status with
            phase := clusterRegistrationPhaseProgressing
            message := "Registering cluster..." } },
        [Effect.statusUpdate { reg.status with
            phase := clusterRegistrationPhaseProgressing
            message := "Registering cluster..." }]⟩ := by
    unfold reconcile
    simp [hdel, hfin, hfix, hname, hphase, hsu,
      clusterRegistrationPhaseProgressing, clusterRegistrationPhaseReady,
      clusterRegistrationPhaseFailed]
  refine ⟨by rw [h1], by rw [h1], by rw [h1], by rw [h1], ?_, ?_⟩ <;>
  · rw [h1]
    have hm : clusterRegistrationFinalizer ∈ reg.meta.finalizers := by
      simpa [containsFinalizer] using hfin
    have hname' : (if reg.spec.clusterName = "" then reg.meta.name else reg.spec.clusterName)
        ≠ clusterLocalName := hname
    unfold reconcile
    rcases hre : env2.registerErr with _ | e <;>
      simp [hdel, containsFinalizer, hm, hname', hct, hwt, hload, hval, hre,
        resolveClusterName,
        clusterRegistrationPhaseProgressing, clusterRegistrationPhaseReady,
        updateFailedStatus] <;>
      rcases hsu2 : env2.statusUpdateErr with _ | e2 <;> simp [hsu2]

/-- A `Failed` record whose generation has already been observed. -/
def sampleRegFailedObserved : ClusterRegistration :=
  { sampleReg with status :=
      { freshStatus with phase := clusterRegistrationPhaseFailed, observedGeneration := 3 } }

theorem reconcile_failed_phase_reexecutes_witness :
    (reconcile sampleEnv sampleRegFailedObserved).reg.status.phase
      = clusterRegistrationPhaseProgressing ∧
    (reconcile sampleEnv sampleRegFailedObserved).effects
      = [Effect.statusUpdate (reconcile sampleEnv sampleRegFailedObserved).reg.status] ∧
    (reconcile sampleEnv sampleRegFailedObserved).result = ⟨false, 0⟩ ∧
    (reconcile sampleEnv sampleRegFailedObserved).err = none ∧
    Effect.loadKubeClusterConfig
      ∈ (reconcile sampleEnv (reconcile sampleEnv sampleRegFailedObserved).reg).effects ∧
    Effect.registerByVelaSecret (resolveClusterName sampleRegFailedObserved)
      ∈ (reconcile sampleEnv (reconcile sampleEnv sampleRegFailedObserved).reg).effects :=
  reconcile_failed_phase_reexecutes sampleEnv sampleEnv sampleRegFailedObserved sampleCfg
    rfl rfl rfl rfl (by decide) rfl rfl rfl rfl rfl

/-- C6: every status snapshot the reconciler hands to a status write either
leaves the condition list exactly as it was on the input record (the
Progressing announcement, which does not touch conditions) or replaces it
with exactly one element (the single Available condition on success, the
single Unavailable condition on failure); the condition list is never
appended to, so it can never grow beyond one element. -/
theorem reconcile_conditions_replaced_not_appended (env : Env) (reg : ClusterRegistration)
    (st : ClusterRegistrationStatus)
    (h : Effect.statusUpdate st ∈ (reconcile env reg).effects) :
    st.conditions = reg.status.conditions ∨ ∃ c, st.conditions = [c] := by
  unfold reconcile handleDeletion updateFailedStatus at h
  by_cases hname : resolveClusterName reg = clusterLocalName <;>
    (repeat' split at h) <;> simp_all

theorem reconcile_conditions_replaced_not_appended_witness :
    ((reconcile sampleEnv sampleRegProgressing).reg.status.conditions
        = sampleRegProgressing.status.conditions ∨
      ∃ c, (reconcile sampleEnv sampleRegProgressing).reg.status.conditions = [c]) :=
  reconcile_conditions_replaced_not_appended sampleEnv sampleRegProgressing
    (reconcile sampleEnv sampleRegProgressing).reg.status (by decide)

end ClusterRegistrationProof
